import Mathlib

/-!
Verification development for the AI-Sales-Forecasting-Platform repository.

The repository's presentation layer (Next.js frontend under
`src/frontend/app`) is embedded directly from the TypeScript source.
The analytics-and-forecast backend (schema detector, metrics calculator,
forecast engine) is not part of the provided sources, so those components
are modelled from the specification text; each such definition carries a
doc comment starting with `Modelled from the spec:`.

Numbers are represented by `ℚ`, JavaScript `undefined`-able fields by
`Option`, and JS truthiness tests on numbers (`x || d`, where `0` is
falsy) by an explicit zero test.
-/

namespace SalesForecast

/-- Clamp a rational to the interval `[lo, hi]`. -/
def clamp (lo hi x : ℚ) : ℚ := max lo (min hi x)

theorem clamp_mem (lo hi x : ℚ) (h : lo ≤ hi) :
    lo ≤ clamp lo hi x ∧ clamp lo hi x ≤ hi := by
  constructor
  · exact le_max_left _ _
  · exact max_le h (min_le_left _ _)

/-- JavaScript `x || d` for an optional number `x`: `undefined` and `0`
are falsy and fall through to the default `d`. -/
def jsOrQ (x : Option ℚ) (d : ℚ) : ℚ :=
  match x with
  | none => d
  | some v => if v = 0 then d else v

/-! ## Frontend data model (src/frontend/app/components/UploadForm.tsx) -/

/-- The `column_info` component of `ForecastResult` (UploadForm.tsx lines 14-21). -/
structure ColumnInfo where
  sales_column : String
  date_column : String
  product_column : Option String
  region_column : Option String
  customer_column : Option String
  additional_columns : List String
deriving Repr, DecidableEq

/-- The `data_validation` component of `ForecastResult` (UploadForm.tsx lines
22-28).  Note the quality and confidence fields are named
`data_quality_score` and `ai_confidence` in the source. -/
structure DataValidation where
  is_valid : Bool
  issues : List String
  warnings : List String
  data_quality_score : ℚ
  ai_confidence : ℚ
deriving Repr, DecidableEq

/-- The field names of the `data_validation` TypeScript interface, in
declaration order (UploadForm.tsx lines 22-28). -/
def dataValidationFields : List String :=
  ["is_valid", "issues", "warnings", "data_quality_score", "ai_confidence"]

/-- The `business_metrics` component of `ForecastResult` (UploadForm.tsx lines 29-43). -/
structure BusinessMetricsRec where
  total_revenue : ℚ
  average_daily_sales : ℚ
  max_daily_sales : ℚ
  min_daily_sales : ℚ
  sales_std_dev : ℚ
  total_days : ℚ
  growth_rate_30d : ℚ
  growth_rate_7d : ℚ
  volatility : ℚ
  momentum : ℚ
  trend_strength : ℚ
  consistency_score : ℚ
  prediction_confidence : ℚ
deriving Repr, DecidableEq

/-- One forecast prediction (UploadForm.tsx lines 46-53). -/
structure PredictionRec where
  date : String
  predicted_sales : ℚ
  lower_bound : Option ℚ
  upper_bound : Option ℚ
  confidence : Option ℚ
  trend : String
deriving Repr, DecidableEq

/-- The `forecast.metrics` component (UploadForm.tsx lines 54-61). -/
structure ForecastMetricsRec where
  mape : Option ℚ
  rmse : Option ℚ
  r_squared : Option ℚ
  samples_evaluated : Option ℚ
  model_confidence : ℚ
  prediction_accuracy : ℚ
deriving Repr, DecidableEq

/-- The `forecast` component of `ForecastResult` (UploadForm.tsx lines 44-65). -/
structure ForecastRec where
  model : String
  predictions : List PredictionRec
  metrics : ForecastMetricsRec
  confidence_intervals : Bool
  periods : ℚ
  ai_model_used : String
deriving Repr, DecidableEq

/-- One entry of `product_analysis.top_products` (ProductAnalysis.tsx
lines 5-12; `growth`, `margin`, `units`, `avg_sale` are optional there). -/
structure TopProduct where
  product : String
  revenue : ℚ
  growth : Option ℚ
  margin : Option ℚ
  units : Option ℚ
  avg_sale : Option ℚ
deriving Repr, DecidableEq

/-- One entry of `product_analysis.growth_opportunities` (UploadForm.tsx lines 73-77). -/
structure GrowthOpportunityRec where
  product : String
  potential : ℚ
  reason : String
deriving Repr, DecidableEq

/-- The `product_analysis.performance_metrics` record (UploadForm.tsx lines 78-82). -/
structure PerformanceMetricsRec where
  product_concentration : ℚ
  average_margin : ℚ
  growth_variance : ℚ
deriving Repr, DecidableEq

/-- The `product_analysis` component of `ForecastResult` (UploadForm.tsx lines 66-83). -/
structure ProductAnalysisRec where
  top_products : List TopProduct
  growth_opportunities : List GrowthOpportunityRec
  performance_metrics : PerformanceMetricsRec
deriving Repr, DecidableEq

/-- One entry of `business_insights` (UploadForm.tsx lines 84-91). -/
structure Insight where
  type : String
  title : String
  description : String
  impact : String
  action : String
  confidence : ℚ
deriving Repr, DecidableEq

/-- One entry of `recommendations` (UploadForm.tsx lines 92-100). -/
structure Recommendation where
  category : String
  title : String
  description : String
  priority : String
  timeframe : String
  impact : String
  ai_confidence : ℚ
deriving Repr, DecidableEq

/-- The `ForecastResult` record consumed by the upload form (UploadForm.tsx
lines 11-124); the `ai_analysis` component is opaque to the claims studied
here and is represented by its presence flag only. -/
structure ForecastResult where
  status : String
  filename : String
  column_info : Option ColumnInfo
  data_validation : DataValidation
  business_metrics : BusinessMetricsRec
  forecast : ForecastRec
  product_analysis : Option ProductAnalysisRec
  business_insights : Option (List Insight)
  recommendations : Option (List Recommendation)
deriving Repr, DecidableEq

/-! ## Frontend accessors (UploadForm.tsx) -/

/-- Source: `getBusinessInsights = () => result?.business_insights || []`
(UploadForm.tsx lines 239-241).  An absent (`undefined`) field is falsy;
a present array, even an empty one, is truthy and returned as-is. -/
def getBusinessInsights (r : ForecastResult) : List Insight :=
  match r.business_insights with
  | none => []
  | some xs => xs

/-- Source: `getRecommendations = () => result?.recommendations || []`
(UploadForm.tsx lines 243-245). -/
def getRecommendations (r : ForecastResult) : List Recommendation :=
  match r.recommendations with
  | none => []
  | some xs => xs

/-- Confidence shown in the forecast detail table:
`(pred.confidence || 0.5)` (UploadForm.tsx lines 550 and 554); the value
`0` and an absent field are both falsy in JS and fall back to `0.5`. -/
def displayedConfidence (p : PredictionRec) : ℚ :=
  jsOrQ p.confidence (1/2)

/-- The percentage rendered in the AI-Confidence column:
`((pred.confidence || 0.5) * 100)` (UploadForm.tsx line 554). -/
def displayedConfidencePct (p : PredictionRec) : ℚ :=
  displayedConfidence p * 100

/-! ## Product analysis (src/frontend/app/components/ProductAnalysis.tsx) -/

/-- The helper `calculateEstimatedUnits` (ProductAnalysis.tsx lines 56-59):
`Math.round(revenue / 250)` with the default average order value 250.
JS `Math.round` rounds half-way cases toward `+∞`, as does Mathlib's
`round` on `ℚ`. -/
def calculateEstimatedUnits (revenue : ℚ) : ℤ :=
  round (revenue / 250)

/-- Units shown for a top product:
`product.units || calculateEstimatedUnits(product.revenue)`
(ProductAnalysis.tsx line 101).  `units` equal to `0` is falsy and also
falls back to the estimate. -/
def displayedUnits (p : TopProduct) : ℚ :=
  jsOrQ p.units ((calculateEstimatedUnits p.revenue : ℤ) : ℚ)

/-! ## Monthly aggregation (src/frontend/app/components/Charts.tsx lines 48-63)

The bar chart groups forecast points by the key
`` `${date.getFullYear()}-${date.getMonth() + 1}` ``.  The point's date is
represented here by its parsed calendar components `(year, month)`; the
`name` display string plays no role in the aggregation. -/

/-- A forecast point as consumed by the Charts monthly aggregation; the
date string is represented by its parsed year and (1-based) month. -/
structure FData where
  year : ℤ
  month : ℕ
  predicted_sales : ℚ
deriving Repr, DecidableEq

/-- The grouping key `` `${date.getFullYear()}-${date.getMonth() + 1}` ``. -/
def monthKey (p : FData) : ℤ × ℕ := (p.year, p.month)

/-- One accumulator entry of the `reduce` (Charts.tsx lines 56-60). -/
structure MonthBucket where
  month : ℤ × ℕ
  sales : ℚ
deriving Repr, DecidableEq

/-- Source: `existing.sales += item.predicted_sales` on the first bucket whose
key matches (Charts.tsx lines 52-54); `find` returns the first match. -/
def addToFirst (key : ℤ × ℕ) (v : ℚ) : List MonthBucket → List MonthBucket
  | [] => []
  | b :: rest =>
      if b.month = key then { b with sales := b.sales + v } :: rest
      else b :: addToFirst key v rest

/-- One step of the `reduce` in Charts.tsx lines 48-63. -/
def monthlyStep (acc : List MonthBucket) (item : FData) : List MonthBucket :=
  if acc.any (fun a => a.month = monthKey item) then
    addToFirst (monthKey item) item.predicted_sales acc
  else
    acc ++ [⟨monthKey item, item.predicted_sales⟩]

/-- The aggregation `monthlyData` (Charts.tsx lines 48-63): fold the forecast points into
month buckets starting from the empty accumulator. -/
def monthlyData (fd : List FData) : List MonthBucket :=
  fd.foldl monthlyStep []

/-- The keys present in a bucket list. -/
def bucketKeys (l : List MonthBucket) : List (ℤ × ℕ) := l.map (·.month)

/-- Total sales over a bucket list. -/
def bucketSum (l : List MonthBucket) : ℚ := (l.map (·.sales)).sum

/-- Total predicted sales over forecast points. -/
def predSum (fd : List FData) : ℚ := (fd.map (·.predicted_sales)).sum

/-! ## The analytics-and-forecast backend, modelled from the spec

The backend component (schema detector, metrics calculator, forecast
engine) is not among the provided sources; only its result shape appears
in the frontend.  The definitions below are modelled from the
specification, sections 4.1-4.3 and section 3. -/

/-- Modelled from the spec: the minimum history length of the Forecast
Engine, "define as 14 days; fewer → fail with InsufficientHistory". -/
def minHistoryDays : ℕ := 14

/-- Modelled from the spec: the fixed forecast horizon of 90 calendar days. -/
def forecastHorizon : ℕ := 90

/-- Modelled from the spec: the error taxonomy of section 7 relevant to
the Forecast Engine. -/
inductive ForecastError where
  | insufficientHistory
  | forecastUnavailable
deriving Repr, DecidableEq

/-- Modelled from the spec: a ForecastPoint of the data model (section 3);
a calendar date is represented by its day number, so consecutive calendar
days are consecutive naturals. -/
structure ForecastPoint where
  date : ℕ
  predicted_sales : ℚ
  lower_bound : ℚ
  upper_bound : ℚ
  confidence : ℚ
  trend : String
deriving Repr, DecidableEq

instance : Inhabited ForecastPoint := ⟨⟨0, 0, 0, 0, 0, "stable"⟩⟩

/-- Mean of a list of rationals, with the spec's 0 sentinel for the
empty list. -/
def meanQ (vals : List ℚ) : ℚ :=
  if vals.length = 0 then 0 else vals.sum / (vals.length : ℚ)

/-- Last value of a series (0 for the empty series). -/
def lastVal (vals : List ℚ) : ℚ := (vals.getLast?).getD 0

/-- First value of a series (0 for the empty series). -/
def headVal (vals : List ℚ) : ℚ := (vals.head?).getD 0

/-- Modelled from the spec: the smoothing/extrapolation baseline
candidate model — it repeats the last observed value. -/
def smoothingModel (vals : List ℚ) (_k : ℕ) : ℚ := lastVal vals

/-- Average daily change over the whole series, used by the trend model. -/
def trendSlope (vals : List ℚ) : ℚ :=
  if vals.length < 2 then 0
  else (lastVal vals - headVal vals) / ((vals.length : ℚ) - 1)

/-- Modelled from the spec: the trend-decomposition candidate model —
linear extrapolation of the series' overall slope from the last value. -/
def trendModel (vals : List ℚ) (k : ℕ) : ℚ :=
  lastVal vals + trendSlope vals * ((k : ℚ) + 1)

/-- Modelled from the spec: the regression-on-lagged-features candidate
model, represented by its dominant feature: the mean of the last 7 days. -/
def laggedModel (vals : List ℚ) (_k : ℕ) : ℚ :=
  meanQ (vals.drop (vals.length - 7))

/-- Modelled from the spec: the equal-weight ensemble combination of the
three candidate models at horizon day `k` (0-based). -/
def ensemblePred (vals : List ℚ) (k : ℕ) : ℚ :=
  (trendModel vals k + laggedModel vals k + smoothingModel vals k) / 3

/-- Modelled from the spec: the dispersion across candidate-model
predictions at horizon day `k` — the spread between the largest and the
smallest candidate prediction. -/
def dispAt (vals : List ℚ) (k : ℕ) : ℚ :=
  max (trendModel vals k) (max (laggedModel vals k) (smoothingModel vals k)) -
    min (trendModel vals k) (min (laggedModel vals k) (smoothingModel vals k))

/-- Running maximum of the dispersion over horizon days `0..k`. -/
def runMaxDisp (vals : List ℚ) : ℕ → ℚ
  | 0 => dispAt vals 0
  | k + 1 => max (runMaxDisp vals k) (dispAt vals (k + 1))

/-- Modelled from the spec: the confidence-interval width at horizon day
`k` — derived from the dispersion across candidate predictions observed
up to that date and widened monotonically with horizon distance. -/
def widthAt (vals : List ℚ) (k : ℕ) : ℚ :=
  runMaxDisp vals k * (1 + (k : ℚ) / 90)

/-- Modelled from the spec: per-point trend classification against the
ensemble's prior prediction with a ±1% stability threshold. -/
def trendClass (vals : List ℚ) (k : ℕ) : String :=
  match k with
  | 0 => "stable"
  | j + 1 =>
      if ensemblePred vals (j + 1) > ensemblePred vals j * (101/100) then "upward"
      else if ensemblePred vals (j + 1) < ensemblePred vals j * (99/100) then "downward"
      else "stable"

/-- Modelled from the spec: per-point confidence in [0,1], decaying with
horizon distance. -/
def pointConfidence (k : ℕ) : ℚ := clamp 0 1 (1 - (k : ℚ) / 180)

/-- Modelled from the spec: the ForecastPoint at 0-based horizon day `k`,
dated the day after the last historical date plus `k`. -/
def mkPoint (vals : List ℚ) (lastDate : ℕ) (k : ℕ) : ForecastPoint :=
  { date := lastDate + 1 + k
    predicted_sales := ensemblePred vals k
    lower_bound := ensemblePred vals k - widthAt vals k / 2
    upper_bound := ensemblePred vals k + widthAt vals k / 2
    confidence := pointConfidence k
    trend := trendClass vals k }

/-- The last date of a time series (0 for the empty series). -/
def lastDateOf (series : List (ℕ × ℚ)) : ℕ :=
  ((series.getLast?).map Prod.fst).getD 0

/-- The daily values of a time series, in date order. -/
def valuesOf (series : List (ℕ × ℚ)) : List ℚ := series.map Prod.snd

/-- Modelled from the spec: the Forecast Engine (section 4.3).  A
TimeSeries of fewer than 14 days fails with `InsufficientHistory`;
otherwise exactly 90 ForecastPoints are produced on the 90 consecutive
calendar days following the last historical date. -/
def forecastEngine (series : List (ℕ × ℚ)) : Except ForecastError (List ForecastPoint) :=
  if series.length < minHistoryDays then
    Except.error ForecastError.insufficientHistory
  else
    Except.ok ((List.range forecastHorizon).map (mkPoint (valuesOf series) (lastDateOf series)))

/-- The forecast points produced for a series ([] on failure). -/
def fcPoints (series : List (ℕ × ℚ)) : List ForecastPoint :=
  match forecastEngine series with
  | Except.ok ps => ps
  | Except.error _ => []

/-! ## Metrics Calculator, modelled from the spec (section 4.2) -/

/-- Sum of the `n` values starting at index `a` (missing indices count 0). -/
def sumFrom (vals : List ℚ) (a n : ℕ) : ℚ :=
  ((List.range n).map (fun i => vals.getD (a + i) 0)).sum

/-- Percentage change from `prev` to `recent`, with the spec's 0 sentinel
when the reference value is 0. -/
def pctChange (recent prev : ℚ) : ℚ :=
  if prev = 0 then 0 else (recent - prev) / prev * 100

/-- Modelled from the spec: `growth_rate_Nd` — the percentage change
between the sum of the last `n` days and the sum of the `n` days
preceding them, 0 when fewer than `2n` days of history exist. -/
def growthRate (n : ℕ) (vals : List ℚ) : ℚ :=
  if vals.length < 2 * n then 0
  else pctChange (sumFrom vals (vals.length - n) n) (sumFrom vals (vals.length - 2 * n) n)

/-- Integer-based rational square root approximation (exact on squares),
used to model the standard deviation over `ℚ`. -/
def ratSqrt (q : ℚ) : ℚ :=
  if q ≤ 0 then 0 else ((Nat.sqrt (q.num.toNat * q.den) : ℤ) : ℚ) / (q.den : ℚ)

/-- Population variance of a series (0 sentinel on the empty series). -/
def varianceQ (vals : List ℚ) : ℚ :=
  meanQ (vals.map (fun v => (v - meanQ vals) ^ 2))

/-- Standard deviation of a series. -/
def stdDevQ (vals : List ℚ) : ℚ := ratSqrt (varianceQ vals)

/-- Modelled from the spec: volatility — the coefficient of variation,
with a 0 sentinel when the mean is 0. -/
def volatilityOf (vals : List ℚ) : ℚ :=
  if meanQ vals = 0 then 0 else stdDevQ vals / meanQ vals

/-- Modelled from the spec: `consistency_score` — `1 − volatility`,
clamped to `[0,1]`. -/
def consistencyScoreOf (vals : List ℚ) : ℚ :=
  clamp 0 1 (1 - volatilityOf vals)

/-- Least-squares slope of the series against day indices 0,1,...,
with the spec's 0 sentinel when the denominator vanishes. -/
def lsSlope (vals : List ℚ) : ℚ :=
  let n : ℚ := vals.length
  let xs : List ℚ := (List.range vals.length).map (fun i => (i : ℚ))
  let sx : ℚ := xs.sum
  let sy : ℚ := vals.sum
  let sxy : ℚ := ((xs.zip vals).map (fun p => p.1 * p.2)).sum
  let sxx : ℚ := (xs.map (fun x => x ^ 2)).sum
  if n * sxx - sx ^ 2 = 0 then 0 else (n * sxy - sx * sy) / (n * sxx - sx ^ 2)

/-- The series' value range `max − min` (0 on the empty series). -/
def valueRange (vals : List ℚ) : ℚ :=
  match vals with
  | [] => 0
  | v :: vs => vs.foldl max v - vs.foldl min v

/-- Modelled from the spec: `trend_strength` — the magnitude of the
regression slope normalized by the value range, clamped to `[0,1]`
(0 sentinel for a degenerate range). -/
def trendStrengthOf (vals : List ℚ) : ℚ :=
  if valueRange vals = 0 then 0
  else clamp 0 1 (|lsSlope vals| / valueRange vals)

/-- Modelled from the spec: momentum — the short-window growth rate minus
the long-window growth rate. -/
def momentumOf (vals : List ℚ) : ℚ := growthRate 7 vals - growthRate 30 vals

/-- Modelled from the spec: the holdout size K=14 used for
backward-looking accuracy scoring. -/
def holdoutDays : ℕ := 14

/-- Relative error of a prediction against an actual value (0 sentinel
when the actual is 0). -/
def pctErr (actual predicted : ℚ) : ℚ :=
  if actual = 0 then 0 else |actual - predicted| / |actual|

/-- Modelled from the spec: the MAPE of the trend candidate model fitted
on all but the last `holdoutDays` days and scored on those days. -/
def holdoutMape (vals : List ℚ) : ℚ :=
  let fit := vals.take (vals.length - holdoutDays)
  let actuals := vals.drop (vals.length - holdoutDays)
  100 * meanQ (actuals.enum.map (fun p => pctErr p.2 (trendModel fit p.1)))

/-- Modelled from the spec: `prediction_accuracy` — a monotone transform
of the holdout error, clamped to `[0,100]`. -/
def predictionAccuracyOf (vals : List ℚ) : ℚ :=
  clamp 0 100 (100 - holdoutMape vals)

/-- Modelled from the spec: `model_confidence` — a monotone transform of
the holdout error, clamped to `[0,1]`. -/
def modelConfidenceOf (vals : List ℚ) : ℚ :=
  clamp 0 1 (1 - holdoutMape vals / 100)

/-- Modelled from the spec: the Metrics Calculator, a pure function from
the daily values of a TimeSeries to a complete BusinessMetrics record. -/
def businessMetricsOf (vals : List ℚ) : BusinessMetricsRec :=
  { total_revenue := vals.sum
    average_daily_sales := meanQ vals
    max_daily_sales := match vals with | [] => 0 | v :: vs => vs.foldl max v
    min_daily_sales := match vals with | [] => 0 | v :: vs => vs.foldl min v
    sales_std_dev := stdDevQ vals
    total_days := (vals.length : ℚ)
    growth_rate_30d := growthRate 30 vals
    growth_rate_7d := growthRate 7 vals
    volatility := volatilityOf vals
    momentum := momentumOf vals
    trend_strength := trendStrengthOf vals
    consistency_score := consistencyScoreOf vals
    prediction_confidence := clamp 0 1 ((consistencyScoreOf vals + trendStrengthOf vals) / 2) }

/-! ## Schema-validation report, modelled from the spec (section 4.1) -/

/-- Modelled from the spec: the ValidationReport produced by the Schema
Detector, carried in the result record's `data_validation` component — the
quality score is a weighted combination of the parse-success ratio, the
fraction of rows with no missing sales/date, and the inverse duplicate
ratio, clamped to `[0,1]`; the confidence equals the quality score
adjusted downward when any warning is present. -/
def mkValidationReport (isValid : Bool) (issues warnings : List String)
    (parseRatio missingRatio dupRatio : ℚ) : DataValidation :=
  let quality := clamp 0 1 ((parseRatio + (1 - missingRatio) + (1 - dupRatio)) / 3)
  { is_valid := isValid
    issues := issues
    warnings := warnings
    data_quality_score := quality
    ai_confidence := if warnings.isEmpty then quality else clamp 0 1 (quality - 1/10) }

/-! ## Concrete records used by witnesses -/

/-- A validation record with full quality and no findings. -/
def demoValidation : DataValidation := ⟨true, [], [], 1, 1⟩

/-- An all-zero business-metrics record. -/
def demoMetricsRec : BusinessMetricsRec := ⟨0, 0, 0, 0, 0, 0, 0, 0, 0, 0, 0, 0, 0⟩

/-- A forecast-metrics record with no optional holdout scores. -/
def demoForecastMetrics : ForecastMetricsRec := ⟨none, none, none, none, 1, 90⟩

/-- A forecast record with no predictions. -/
def demoForecastRec : ForecastRec := ⟨"ensemble", [], demoForecastMetrics, true, 90, "gemini"⟩

/-- A result record whose optional components are all absent. -/
def demoResult : ForecastResult :=
  ⟨"success", "sales.csv", none, demoValidation, demoMetricsRec, demoForecastRec,
    none, none, none⟩

/-- The demo result with one business insight present. -/
def demoInsight : Insight := ⟨"positive", "t", "d", "high", "a", 9/10⟩

/-- The demo result carrying a present (singleton) insights field. -/
def demoResultWithInsights : ForecastResult :=
  { demoResult with business_insights := some [demoInsight] }

/-- A prediction whose confidence field holds the value 0. -/
def demoPredZero : PredictionRec := ⟨"2024-01-01", 100, none, none, some 0, "stable"⟩

/-- A prediction whose confidence field is absent. -/
def demoPredNone : PredictionRec := ⟨"2024-01-02", 100, none, none, none, "stable"⟩

/-- A prediction with a genuine nonzero confidence. -/
def demoPredPos : PredictionRec := ⟨"2024-01-03", 100, none, none, some (3/4), "upward"⟩

/-- A top product reporting zero units sold and 500 in revenue. -/
def zeroUnitsProduct : TopProduct := ⟨"Basic Plan", 500, none, none, some 0, none⟩

/-- A top product with no units field. -/
def noUnitsProduct : TopProduct := ⟨"Premium", 1000, none, none, none, none⟩

/-- A top product with an explicit nonzero unit count. -/
def someUnitsProduct : TopProduct := ⟨"Enterprise", 1000, none, none, some 7, none⟩

/-! ## Claim C4 -/

/-- Claim C4: the consumer substitutes the empty array exactly for an
absent `business_insights` or `recommendations` field — `getBusinessInsights`
and `getRecommendations` (UploadForm.tsx lines 239-245) return `[]` when
the corresponding field is absent and return the field's value when it is
present. -/
theorem C4_missing_annotation_fields (r : ForecastResult) :
    (r.business_insights = none → getBusinessInsights r = []) ∧
    (∀ xs, r.business_insights = some xs → getBusinessInsights r = xs) ∧
    (r.recommendations = none → getRecommendations r = []) ∧
    (∀ xs, r.recommendations = some xs → getRecommendations r = xs) := by
  refine ⟨fun h => ?_, fun xs h => ?_, fun h => ?_, fun xs h => ?_⟩ <;>
    simp [getBusinessInsights, getRecommendations, h]

/-- Witness for C4 at two concrete result records: one with the insights
field absent, one with it present. -/
theorem C4_missing_annotation_fields_witness :
    (demoResult.business_insights = none ∧ getBusinessInsights demoResult = []) ∧
    (demoResultWithInsights.business_insights = some [demoInsight] ∧
      getBusinessInsights demoResultWithInsights = [demoInsight]) :=
  ⟨⟨rfl, (C4_missing_annotation_fields demoResult).1 rfl⟩,
    ⟨rfl, (C4_missing_annotation_fields demoResultWithInsights).2.1 [demoInsight] rfl⟩⟩

/-! ## Claim C10 -/

/-- Claim C10: in the forecast detail table (UploadForm.tsx lines 545-556)
an undefined or zero confidence is displayed as 0.5 (50%), a nonzero
confidence is displayed as-is, and a genuine 0 confidence is
indistinguishable from a missing one. -/
theorem C10_confidence_display (p q : PredictionRec) :
    (p.confidence = none → displayedConfidencePct p = 50) ∧
    (p.confidence = some 0 → displayedConfidencePct p = 50) ∧
    (∀ v, p.confidence = some v → v ≠ 0 → displayedConfidence p = v) ∧
    (p.confidence = some 0 → q.confidence = none →
      displayedConfidence p = displayedConfidence q) := by
  refine ⟨fun h => ?_, fun h => ?_, fun v h hv => ?_, fun h h' => ?_⟩
  · simp [displayedConfidencePct, displayedConfidence, jsOrQ, h]; norm_num
  · simp [displayedConfidencePct, displayedConfidence, jsOrQ, h]; norm_num
  · simp [displayedConfidence, jsOrQ, h, hv]
  · simp [displayedConfidence, jsOrQ, h, h']

/-- Witness for C10 at concrete predictions with confidence 0, absent
confidence, and confidence 3/4. -/
theorem C10_confidence_display_witness :
    (demoPredZero.confidence = some 0 ∧ displayedConfidencePct demoPredZero = 50) ∧
    (demoPredNone.confidence = none ∧ displayedConfidencePct demoPredNone = 50) ∧
    (demoPredPos.confidence = some (3/4) ∧ (3/4 : ℚ) ≠ 0 ∧
      displayedConfidence demoPredPos = 3/4) ∧
    displayedConfidence demoPredZero = displayedConfidence demoPredNone :=
  ⟨⟨rfl, (C10_confidence_display demoPredZero demoPredNone).2.1 rfl⟩,
    ⟨rfl, (C10_confidence_display demoPredNone demoPredNone).1 rfl⟩,
    ⟨rfl, by norm_num,
      (C10_confidence_display demoPredPos demoPredNone).2.2.1 (3/4) rfl (by norm_num)⟩,
    (C10_confidence_display demoPredZero demoPredNone).2.2.2 rfl rfl⟩

/-! ## Claim C7 -/

/-- Counterexample to claim C7: `zeroUnitsProduct` carries an explicit
units field with value 0, yet the displayed unit count is the revenue
estimate 2, not the field's value — the estimate is not used *exactly*
when `product.units` is absent, because JS `||` also treats 0 as missing
(ProductAnalysis.tsx line 101). -/
theorem C7_counterexample :
    zeroUnitsProduct.units = some 0 ∧
    displayedUnits zeroUnitsProduct = 2 ∧
    displayedUnits zeroUnitsProduct ≠ 0 := by
  refine ⟨rfl, ?_, ?_⟩ <;>
    norm_num [displayedUnits, zeroUnitsProduct, jsOrQ, calculateEstimatedUnits,
      round_eq]

/-- Claim C7 as amended: `calculateEstimatedUnits(revenue)` is
`round(revenue / 250)` (ProductAnalysis.tsx lines 56-59), and the estimate
is used exactly when `product.units` is absent **or equal to 0** (both are
falsy in JS); a present nonzero units value is displayed as-is. -/
theorem C7_estimated_units (p : TopProduct) :
    (∀ r : ℚ, calculateEstimatedUnits r = round (r / 250)) ∧
    (p.units = none → displayedUnits p = (calculateEstimatedUnits p.revenue : ℚ)) ∧
    (p.units = some 0 → displayedUnits p = (calculateEstimatedUnits p.revenue : ℚ)) ∧
    (∀ v, p.units = some v → v ≠ 0 → displayedUnits p = v) := by
  refine ⟨fun r => rfl, fun h => ?_, fun h => ?_, fun v h hv => ?_⟩
  · simp [displayedUnits, jsOrQ, h]
  · simp [displayedUnits, jsOrQ, h]
  · simp [displayedUnits, jsOrQ, h, hv]

/-- Witness for C7 at concrete products with absent, zero, and explicit
nonzero units. -/
theorem C7_estimated_units_witness :
    (noUnitsProduct.units = none ∧
      displayedUnits noUnitsProduct = (calculateEstimatedUnits noUnitsProduct.revenue : ℚ)) ∧
    (zeroUnitsProduct.units = some 0 ∧
      displayedUnits zeroUnitsProduct = (calculateEstimatedUnits zeroUnitsProduct.revenue : ℚ)) ∧
    (someUnitsProduct.units = some 7 ∧ (7 : ℚ) ≠ 0 ∧ displayedUnits someUnitsProduct = 7) :=
  ⟨⟨rfl, (C7_estimated_units noUnitsProduct).2.1 rfl⟩,
    ⟨rfl, (C7_estimated_units zeroUnitsProduct).2.2.1 rfl⟩,
    ⟨rfl, by norm_num, (C7_estimated_units someUnitsProduct).2.2.2 7 rfl (by norm_num)⟩⟩

/-! ## Claim C8 -/

/-- Counterexample to claim C8: the result record's `data_validation`
component (UploadForm.tsx lines 22-28) carries no field named
`quality_score` and no field named `confidence`. -/
theorem C8_counterexample :
    "quality_score" ∉ dataValidationFields ∧ "confidence" ∉ dataValidationFields := by
  decide

/-- Claim C8 as amended: every result record's `data_validation` component
has shape `{is_valid: bool, issues: [string], warnings: [string],
data_quality_score: float∈[0,1], ai_confidence: float∈[0,1]}` — the quality
and confidence fields are named `data_quality_score` and `ai_confidence`,
and the spec-modelled Schema Detector constrains both to `[0,1]`. -/
theorem C8_validation_shape (b : Bool) (iss ws : List String) (pr mr dr : ℚ) :
    dataValidationFields =
      ["is_valid", "issues", "warnings", "data_quality_score", "ai_confidence"] ∧
    0 ≤ (mkValidationReport b iss ws pr mr dr).data_quality_score ∧
    (mkValidationReport b iss ws pr mr dr).data_quality_score ≤ 1 ∧
    0 ≤ (mkValidationReport b iss ws pr mr dr).ai_confidence ∧
    (mkValidationReport b iss ws pr mr dr).ai_confidence ≤ 1 := by
  have h01 : (0 : ℚ) ≤ 1 := by norm_num
  refine ⟨rfl, (clamp_mem _ _ _ h01).1, (clamp_mem _ _ _ h01).2, ?_, ?_⟩ <;>
    · simp only [mkValidationReport]
      by_cases hw : ws.isEmpty <;>
        simp only [hw, if_true, if_false, Bool.false_eq_true] <;>
        first
          | exact (clamp_mem _ _ _ h01).1
          | exact (clamp_mem _ _ _ h01).2

/-! ## Claim C9 -/

theorem bucketKeys_addToFirst (key : ℤ × ℕ) (v : ℚ) (l : List MonthBucket) :
    bucketKeys (addToFirst key v l) = bucketKeys l := by
  induction l with
  | nil => rfl
  | cons b rest ih =>
      by_cases h : b.month = key
      · simp [addToFirst, h, bucketKeys]
      · simp only [addToFirst, h, if_false, bucketKeys, List.map_cons]
        simpa [bucketKeys] using ih

theorem bucketSum_addToFirst (key : ℤ × ℕ) (v : ℚ) (l : List MonthBucket)
    (h : key ∈ bucketKeys l) :
    bucketSum (addToFirst key v l) = bucketSum l + v := by
  induction l with
  | nil => simp [bucketKeys] at h
  | cons b rest ih =>
      by_cases hb : b.month = key
      · simp [addToFirst, hb, bucketSum]
        ring
      · have hrest : key ∈ bucketKeys rest := by
          simp only [bucketKeys, List.map_cons, List.mem_cons] at h
          rcases h with h' | h'
          · exact absurd h'.symm hb
          · exact h'
        simp [addToFirst, hb, bucketSum] at ih ⊢
        rw [ih hrest]
        ring

theorem monthlyData_invariant (fd : List FData) (acc : List MonthBucket)
    (hnd : (bucketKeys acc).Nodup) :
    (bucketKeys (fd.foldl monthlyStep acc)).Nodup ∧
    bucketSum (fd.foldl monthlyStep acc) = bucketSum acc + predSum fd := by
  induction fd generalizing acc with
  | nil => simpa [predSum] using hnd
  | cons item rest ih =>
      simp only [List.foldl_cons]
      by_cases hmem : acc.any (fun a => a.month = monthKey item)
      · have hkey : monthKey item ∈ bucketKeys acc := by
          rcases List.any_eq_true.mp hmem with ⟨a, ha, ha'⟩
          exact List.mem_map.mpr ⟨a, ha, of_decide_eq_true ha'⟩
        have hstep : monthlyStep acc item =
            addToFirst (monthKey item) item.predicted_sales acc := by
          simp [monthlyStep, hmem]
        have hnd' : (bucketKeys (monthlyStep acc item)).Nodup := by
          rw [hstep, bucketKeys_addToFirst]; exact hnd
        have := ih (monthlyStep acc item) hnd'
        refine ⟨this.1, ?_⟩
        rw [this.2, hstep, bucketSum_addToFirst _ _ _ hkey]
        simp [predSum]
        ring
      · have hkey : monthKey item ∉ bucketKeys acc := by
          intro hc
          rcases List.mem_map.mp hc with ⟨a, ha, ha'⟩
          exact hmem (List.any_eq_true.mpr ⟨a, ha, decide_eq_true ha'⟩)
        have hstep : monthlyStep acc item =
            acc ++ [⟨monthKey item, item.predicted_sales⟩] := by
          simp [monthlyStep, hmem]
        have hnd' : (bucketKeys (monthlyStep acc item)).Nodup := by
          rw [hstep]
          simp [bucketKeys, List.nodup_append]
          exact ⟨hnd, fun x hx hx' => hkey (hx' ▸ List.mem_map.mpr ⟨x, hx, rfl⟩)⟩
        have := ih (monthlyStep acc item) hnd'
        refine ⟨this.1, ?_⟩
        rw [this.2, hstep]
        simp [bucketSum, predSum]
        ring

/-- Claim C9: the monthly aggregation of Charts.tsx lines 48-63 is a
sum-preserving partition — no two buckets of `monthlyData` share a
year-month key, and the bucket totals sum to the total predicted sales of
the forecast points. -/
theorem C9_monthly_partition (fd : List FData) :
    (bucketKeys (monthlyData fd)).Nodup ∧ bucketSum (monthlyData fd) = predSum fd := by
  have h := monthlyData_invariant fd [] (by simp [bucketKeys])
  refine ⟨h.1, ?_⟩
  rw [monthlyData, h.2]
  simp [bucketSum]

/-! ## Claims about the Forecast Engine (C1, C2, C3) -/

/-- A 10-day daily series of constant sales 100 on days 1..10. -/
def demoTenDaySeries : List (ℕ × ℚ) := (List.range 10).map (fun i => (i + 1, 100))

/-- A 14-day daily series with mildly increasing sales on days 1..14. -/
def demo14Series : List (ℕ × ℚ) := (List.range 14).map (fun i => (i + 1, (i : ℚ) + 10))

theorem fcPoints_eq (series : List (ℕ × ℚ)) (h : 14 ≤ series.length) :
    fcPoints series =
      (List.range forecastHorizon).map (mkPoint (valuesOf series) (lastDateOf series)) := by
  have hne : ¬ series.length < minHistoryDays := by
    simp only [minHistoryDays]; omega
  simp [fcPoints, forecastEngine, hne]

theorem getD_map_range (f : ℕ → ForecastPoint) (n i : ℕ) (hi : i < n) :
    ((List.range n).map f).getD i default = f i := by
  have hlen : i < ((List.range n).map f).length := by simpa using hi
  rw [List.getD_eq_getElem _ _ hlen]
  simp

/-- Claim C1: for every TimeSeries with at least 14 days of history the
Forecast Engine returns exactly 90 ForecastPoints whose dates are the 90
consecutive calendar days starting the day after the last historical date
— hence strictly increasing and contiguous. -/
theorem C1_forecast_horizon_shape (series : List (ℕ × ℚ)) (h : 14 ≤ series.length) :
    (fcPoints series).length = 90 ∧
    (∀ i, i < 90 →
      ((fcPoints series).getD i default).date = lastDateOf series + 1 + i) ∧
    (∀ i j, i < j → j < 90 →
      ((fcPoints series).getD i default).date < ((fcPoints series).getD j default).date) ∧
    (∀ i, i + 1 < 90 →
      ((fcPoints series).getD (i + 1) default).date =
        ((fcPoints series).getD i default).date + 1) := by
  have hfc := fcPoints_eq series h
  have hdate : ∀ i, i < 90 →
      ((fcPoints series).getD i default).date = lastDateOf series + 1 + i := by
    intro i hi
    rw [hfc, getD_map_range _ _ _ (by simpa [forecastHorizon] using hi)]
    rfl
  refine ⟨?_, hdate, ?_, ?_⟩
  · rw [hfc]; simp [forecastHorizon]
  · intro i j hij hj
    rw [hdate i (lt_trans hij hj), hdate j hj]
    omega
  · intro i hi
    rw [hdate (i + 1) hi, hdate i (by omega)]
    omega

/-- Witness for C1 at a concrete 14-day series. -/
theorem C1_forecast_horizon_shape_witness :
    14 ≤ demo14Series.length ∧
    (fcPoints demo14Series).length = 90 ∧
    ((fcPoints demo14Series).getD 0 default).date = lastDateOf demo14Series + 1 + 0 ∧
    ((fcPoints demo14Series).getD 0 default).date < ((fcPoints demo14Series).getD 5 default).date ∧
    ((fcPoints demo14Series).getD 1 default).date = ((fcPoints demo14Series).getD 0 default).date + 1 :=
  ⟨by decide,
    (C1_forecast_horizon_shape demo14Series (by decide)).1,
    (C1_forecast_horizon_shape demo14Series (by decide)).2.1 0 (by decide),
    (C1_forecast_horizon_shape demo14Series (by decide)).2.2.1 0 5 (by decide) (by decide),
    (C1_forecast_horizon_shape demo14Series (by decide)).2.2.2 0 (by decide)⟩

theorem dispAt_nonneg (vals : List ℚ) (k : ℕ) : 0 ≤ dispAt vals k := by
  have h : min (trendModel vals k) (min (laggedModel vals k) (smoothingModel vals k)) ≤
      max (trendModel vals k) (max (laggedModel vals k) (smoothingModel vals k)) :=
    le_trans (min_le_left _ _) (le_max_left _ _)
  simp only [dispAt, sub_nonneg]
  exact h

theorem runMaxDisp_nonneg (vals : List ℚ) (k : ℕ) : 0 ≤ runMaxDisp vals k := by
  induction k with
  | zero => exact dispAt_nonneg vals 0
  | succ m ih => exact le_trans ih (le_max_left _ _)

theorem runMaxDisp_mono (vals : List ℚ) (j k : ℕ) (hjk : j ≤ k) :
    runMaxDisp vals j ≤ runMaxDisp vals k := by
  induction k with
  | zero =>
      have : j = 0 := by omega
      simp [this]
  | succ m ih =>
      rcases Nat.lt_or_ge j (m + 1) with hlt | hge
      · exact le_trans (ih (by omega)) (le_max_left _ _)
      · have : j = m + 1 := by omega
        simp [this]

theorem widthAt_mono (vals : List ℚ) (j k : ℕ) (hjk : j ≤ k) :
    widthAt vals j ≤ widthAt vals k := by
  have hcast : (j : ℚ) ≤ (k : ℚ) := by exact_mod_cast hjk
  have hfac : 1 + (j : ℚ) / 90 ≤ 1 + (k : ℚ) / 90 := by gcongr
  have hfacpos : 0 ≤ 1 + (j : ℚ) / 90 := by positivity
  exact mul_le_mul (runMaxDisp_mono vals j k hjk) hfac hfacpos (runMaxDisp_nonneg vals k)

theorem fcPoints_width (series : List (ℕ × ℚ)) (h : 14 ≤ series.length)
    (i : ℕ) (hi : i < 90) :
    ((fcPoints series).getD i default).upper_bound -
      ((fcPoints series).getD i default).lower_bound = widthAt (valuesOf series) i := by
  rw [fcPoints_eq series h, getD_map_range _ _ _ (by simpa [forecastHorizon] using hi)]
  simp [mkPoint]

/-- Claim C2: within the returned 90-point forecast the confidence-interval
width `upper_bound − lower_bound` is non-decreasing in the horizon day. -/
theorem C2_ci_width_monotone (series : List (ℕ × ℚ)) (h : 14 ≤ series.length)
    (j k : ℕ) (hjk : j ≤ k) (hk : k < 90) :
    ((fcPoints series).getD j default).upper_bound -
      ((fcPoints series).getD j default).lower_bound ≤
    ((fcPoints series).getD k default).upper_bound -
      ((fcPoints series).getD k default).lower_bound := by
  rw [fcPoints_width series h j (lt_of_le_of_lt hjk hk), fcPoints_width series h k hk]
  exact widthAt_mono (valuesOf series) j k hjk

/-- Witness for C2 at the concrete 14-day series, horizon days 2 and 7. -/
theorem C2_ci_width_monotone_witness :
    14 ≤ demo14Series.length ∧ 2 ≤ 7 ∧ 7 < 90 ∧
    ((fcPoints demo14Series).getD 2 default).upper_bound -
      ((fcPoints demo14Series).getD 2 default).lower_bound ≤
    ((fcPoints demo14Series).getD 7 default).upper_bound -
      ((fcPoints demo14Series).getD 7 default).lower_bound :=
  ⟨by decide, by decide, by decide,
    C2_ci_width_monotone demo14Series (by decide) 2 7 (by decide) (by decide)⟩

/-- Claim C3: a TimeSeries with fewer than 14 days of history makes the
Forecast Engine fail with the fatal `InsufficientHistory` error and
produce no forecast points. -/
theorem C3_insufficient_history (series : List (ℕ × ℚ)) (h : series.length < 14) :
    forecastEngine series = Except.error ForecastError.insufficientHistory ∧
    fcPoints series = [] := by
  have h' : series.length < minHistoryDays := h
  exact ⟨by simp [forecastEngine, h'], by simp [fcPoints, forecastEngine, h']⟩

/-- Witness for C3 at a concrete 10-day series. -/
theorem C3_insufficient_history_witness :
    demoTenDaySeries.length < 14 ∧
    forecastEngine demoTenDaySeries = Except.error ForecastError.insufficientHistory ∧
    fcPoints demoTenDaySeries = [] :=
  ⟨by decide,
    (C3_insufficient_history demoTenDaySeries (by decide)).1,
    (C3_insufficient_history demoTenDaySeries (by decide)).2⟩

/-! ## Claim C5 -/

/-- Modelled from the spec: the ForecastMetrics record derived from the
holdout evaluation of section 4.3. -/
def forecastMetricsOf (vals : List ℚ) : ForecastMetricsRec :=
  { mape := some (holdoutMape vals)
    rmse := none
    r_squared := none
    samples_evaluated := some (holdoutDays : ℚ)
    model_confidence := modelConfidenceOf vals
    prediction_accuracy := predictionAccuracyOf vals }

/-- Claim C5: for every input series the BusinessMetrics satisfy
`consistency_score ∈ [0,1]` and `trend_strength ∈ [0,1]`, and the
ForecastMetrics satisfy `prediction_accuracy ∈ [0,100]` — the range under
which the KPI card's progress-bar width percentage is well-formed. -/
theorem C5_metric_ranges (vals : List ℚ) :
    (0 ≤ (businessMetricsOf vals).consistency_score ∧
      (businessMetricsOf vals).consistency_score ≤ 1) ∧
    (0 ≤ (businessMetricsOf vals).trend_strength ∧
      (businessMetricsOf vals).trend_strength ≤ 1) ∧
    (0 ≤ (forecastMetricsOf vals).prediction_accuracy ∧
      (forecastMetricsOf vals).prediction_accuracy ≤ 100) := by
  have h01 : (0 : ℚ) ≤ 1 := by norm_num
  have h0100 : (0 : ℚ) ≤ 100 := by norm_num
  refine ⟨⟨?_, ?_⟩, ⟨?_, ?_⟩, ⟨?_, ?_⟩⟩
  · exact (clamp_mem _ _ _ h01).1
  · exact (clamp_mem _ _ _ h01).2
  · show 0 ≤ trendStrengthOf vals
    rw [trendStrengthOf]
    by_cases hr : valueRange vals = 0
    · simp [hr]
    · simpa [hr] using (clamp_mem 0 1 (|lsSlope vals| / valueRange vals) h01).1
  · show trendStrengthOf vals ≤ 1
    rw [trendStrengthOf]
    by_cases hr : valueRange vals = 0
    · simp [hr]
    · simpa [hr] using (clamp_mem 0 1 (|lsSlope vals| / valueRange vals) h01).2
  · exact (clamp_mem _ _ _ h0100).1
  · exact (clamp_mem _ _ _ h0100).2

/-! ## Claim C6 -/

theorem sum_map_range_lt (f g : ℕ → ℚ) (n : ℕ) (hn : 0 < n)
    (h : ∀ i, i < n → f i < g i) :
    ((List.range n).map f).sum < ((List.range n).map g).sum := by
  induction n with
  | zero => omega
  | succ m ih =>
      rw [List.range_succ, List.map_append, List.map_append,
        List.sum_append, List.sum_append]
      rcases Nat.eq_zero_or_pos m with h0 | hm
      · subst h0
        simpa using h 0 (by omega)
      · have hsum := ih hm (fun i hi => h i (by omega))
        have hlast := h m (by omega)
        simp only [List.map_cons, List.map_nil, List.sum_cons, List.sum_nil]
        linarith

theorem chain_getD_lt (vals : List ℚ) (hc : List.Chain' (· < ·) vals)
    (i j : ℕ) (hij : i < j) (hj : j < vals.length) :
    vals.getD i 0 < vals.getD j 0 := by
  have hp : List.Pairwise (· < ·) vals := List.chain'_iff_pairwise.mp hc
  have hi : i < vals.length := lt_trans hij hj
  rw [List.getD_eq_getElem _ _ hi, List.getD_eq_getElem _ _ hj]
  exact List.pairwise_iff_getElem.mp hp i j hi hj hij

theorem getD_nonneg_of_mem (vals : List ℚ) (hnn : ∀ v ∈ vals, 0 ≤ v) (i : ℕ) :
    0 ≤ vals.getD i 0 := by
  rcases Nat.lt_or_ge i vals.length with hi | hi
  · rw [List.getD_eq_getElem _ _ hi]
    exact hnn _ (List.getElem_mem hi)
  · rw [List.getD_eq_default _ _ hi]

theorem growthRate30_pos (vals : List ℚ) (hc : List.Chain' (· < ·) vals)
    (hnn : ∀ v ∈ vals, 0 ≤ v) (hlen : 60 ≤ vals.length) :
    0 < growthRate 30 vals := by
  have hnot : ¬ vals.length < 2 * 30 := by omega
  rw [growthRate, if_neg hnot]
  have hlt : sumFrom vals (vals.length - 2 * 30) 30 < sumFrom vals (vals.length - 30) 30 := by
    unfold sumFrom
    apply sum_map_range_lt _ _ 30 (by norm_num)
    intro i hi
    exact chain_getD_lt vals hc _ _ (by omega) (by omega)
  have hprev : 0 < sumFrom vals (vals.length - 2 * 30) 30 := by
    unfold sumFrom
    have hterm : 0 < vals.getD (vals.length - 2 * 30 + 1) 0 := by
      have hstep : vals.getD (vals.length - 2 * 30) 0 <
          vals.getD (vals.length - 2 * 30 + 1) 0 :=
        chain_getD_lt vals hc _ _ (by omega) (by omega)
      have hbase := getD_nonneg_of_mem vals hnn (vals.length - 2 * 30)
      linarith
    have hmem : vals.getD (vals.length - 2 * 30 + 1) 0 ∈
        (List.range 30).map (fun i => vals.getD (vals.length - 2 * 30 + i) 0) :=
      List.mem_map.mpr ⟨1, by simp, rfl⟩
    have hall : ∀ x ∈ (List.range 30).map
        (fun i => vals.getD (vals.length - 2 * 30 + i) 0), 0 ≤ x := by
      intro x hx
      rcases List.mem_map.mp hx with ⟨i, _, rfl⟩
      exact getD_nonneg_of_mem vals hnn _
    exact lt_of_lt_of_le hterm (List.single_le_sum hall _ hmem)
  rw [pctChange, if_neg (ne_of_gt hprev)]
  have hdiv : 0 < (sumFrom vals (vals.length - 30) 30 -
      sumFrom vals (vals.length - 2 * 30) 30) / sumFrom vals (vals.length - 2 * 30) 30 :=
    div_pos (by linarith) hprev
  linarith

theorem growthRate30_flat (vals : List ℚ) (c : ℚ) (hall : ∀ v ∈ vals, v = c) :
    growthRate 30 vals = 0 := by
  by_cases hlen : vals.length < 2 * 30
  · rw [growthRate, if_pos hlen]
  · rw [growthRate, if_neg hlen]
    have hgetD : ∀ a n : ℕ, a + n ≤ vals.length → sumFrom vals a n = n * c := by
      intro a n han
      unfold sumFrom
      have hmap : (List.range n).map (fun i => vals.getD (a + i) 0) =
          (List.range n).map (fun _ => c) := by
        apply List.map_congr_left
        intro i hi
        have hilt : a + i < vals.length := by
          have := List.mem_range.mp hi
          omega
        rw [List.getD_eq_getElem _ _ hilt]
        exact hall _ (List.getElem_mem hilt)
      rw [hmap]
      simp [List.map_const', List.sum_replicate, nsmul_eq_mul]
    rw [hgetD _ 30 (by omega), hgetD _ 30 (by omega)]
    simp [pctChange]

/-- A strictly increasing series of only 10 days. -/
def shortIncSeries : List ℚ := [1, 2, 3, 4, 5, 6, 7, 8, 9, 10]

/-- A strictly increasing 60-day series of negative values. -/
def negIncSeries : List ℚ :=
  [-120, -119, -118, -117, -116, -115, -114, -113, -112, -111,
   -110, -109, -108, -107, -106, -105, -104, -103, -102, -101,
   -100, -99, -98, -97, -96, -95, -94, -93, -92, -91,
   -90, -89, -88, -87, -86, -85, -84, -83, -82, -81,
   -80, -79, -78, -77, -76, -75, -74, -73, -72, -71,
   -70, -69, -68, -67, -66, -65, -64, -63, -62, -61]

/-- A strictly increasing 60-day series of positive values. -/
def incSeries60 : List ℚ :=
  [1, 2, 3, 4, 5, 6, 7, 8, 9, 10,
   11, 12, 13, 14, 15, 16, 17, 18, 19, 20,
   21, 22, 23, 24, 25, 26, 27, 28, 29, 30,
   31, 32, 33, 34, 35, 36, 37, 38, 39, 40,
   41, 42, 43, 44, 45, 46, 47, 48, 49, 50,
   51, 52, 53, 54, 55, 56, 57, 58, 59, 60]

/-- A flat 5-day series of constant value 100. -/
def flatSeries5 : List ℚ := List.replicate 5 (100 : ℚ)

/-- Counterexample to claim C6: `growth_rate_30d` is **not** strictly
positive on every strictly monotonically increasing series — the
10-day strictly increasing series `shortIncSeries` falls under the
fewer-than-60-days sentinel and yields 0, and the strictly increasing
60-day series `negIncSeries` of negative values yields a negative rate. -/
theorem C6_counterexample :
    List.Chain' (· < ·) shortIncSeries ∧ growthRate 30 shortIncSeries = 0 ∧
    List.Chain' (· < ·) negIncSeries ∧ growthRate 30 negIncSeries < 0 := by
  refine ⟨List.chain'_iff_pairwise.mpr (by decide), ?_,
    List.chain'_iff_pairwise.mpr (by decide), ?_⟩
  · rw [growthRate, if_pos (by decide)]
  · rw [growthRate, if_neg (by decide)]
    have e1 : sumFrom negIncSeries (negIncSeries.length - 30) 30 =
        ([-90, -89, -88, -87, -86, -85, -84, -83, -82, -81,
          -80, -79, -78, -77, -76, -75, -74, -73, -72, -71,
          -70, -69, -68, -67, -66, -65, -64, -63, -62, -61] : List ℚ).sum := rfl
    have e2 : sumFrom negIncSeries (negIncSeries.length - 2 * 30) 30 =
        ([-120, -119, -118, -117, -116, -115, -114, -113, -112, -111,
          -110, -109, -108, -107, -106, -105, -104, -103, -102, -101,
          -100, -99, -98, -97, -96, -95, -94, -93, -92, -91] : List ℚ).sum := rfl
    have s1 : sumFrom negIncSeries (negIncSeries.length - 30) 30 = -2265 := by
      rw [e1]; norm_num [List.sum_cons, List.sum_nil]
    have s2 : sumFrom negIncSeries (negIncSeries.length - 2 * 30) 30 = -3165 := by
      rw [e2]; norm_num [List.sum_cons, List.sum_nil]
    rw [s1, s2, pctChange, if_neg (by norm_num)]
    norm_num

/-- Claim C6 as amended: `growth_rate_Nd` is the percentage change between
the sum of the last N days and the sum of the N preceding days, with the
sentinel 0 whenever fewer than 2N days exist; `growth_rate_30d` is
strictly positive on every strictly monotonically increasing series **of
nonnegative values with at least 60 days of history**, and exactly 0 on
every perfectly flat series. -/
theorem C6_growth_rate (n : ℕ) (vals : List ℚ) :
    (vals.length < 2 * n → growthRate n vals = 0) ∧
    (List.Chain' (· < ·) vals → (∀ v ∈ vals, 0 ≤ v) → 60 ≤ vals.length →
      0 < growthRate 30 vals) ∧
    (∀ c : ℚ, (∀ v ∈ vals, v = c) → growthRate 30 vals = 0) :=
  ⟨fun h => by rw [growthRate, if_pos h],
    fun hc hnn hlen => growthRate30_pos vals hc hnn hlen,
    fun c hall => growthRate30_flat vals c hall⟩

/-- Witness for C6 at a short strictly increasing series, a positive
strictly increasing 60-day series, and a flat series. -/
theorem C6_growth_rate_witness :
    growthRate 30 shortIncSeries = 0 ∧
    0 < growthRate 30 incSeries60 ∧
    growthRate 30 flatSeries5 = 0 :=
  ⟨(C6_growth_rate 30 shortIncSeries).1 (by decide),
    (C6_growth_rate 30 incSeries60).2.1
      (List.chain'_iff_pairwise.mpr (by decide)) (by decide) (by decide),
    (C6_growth_rate 30 flatSeries5).2.2 100 (by decide)⟩

end SalesForecast
